import Mathlib

/-!
Verification of the length-prefixed binary RPC protocol client of the
`expyriment-stash` repository: `TbvNetworkInterface`
(`src/extras/expyriment_io_extras/tbvnetworkinterface/_tbvnetworkinterface.py`)
and `TurbosatoriNetworkInterface`
(`src/extras/expyriment_io_extras/turbosatorinetworkinterface/_turbosatorinetworkinterface.py`).

Bytes are modelled as `List Nat` (each entry < 256 where produced by the
code).  Python `struct` pack/unpack, `chr`, and the expyriment helpers
`unicode_to_bytes` / `bytes_to_unicode` (UTF-8 encode / decode) are embedded
below; stateful socket code is embedded as explicit state passing with an
event log.
-/

/-- Big-endian byte string of width `w` for the natural number `n`
(modulo `256 ^ w`), the core of Python `struct.pack` with `'!'` formats. -/
def beBytes : Nat → Nat → List Nat
  | 0, _ => []
  | w + 1, n => beBytes w (n / 256) ++ [n % 256]

/-- `struct.pack('!q', n)` for the non-negative frame lengths the client
packs: 8 bytes, big-endian. -/
def pack_q (n : Nat) : List Nat := beBytes 8 n

/-- Big-endian value of a byte string. -/
def fromBE (bs : List Nat) : Nat := bs.foldl (fun a b => a * 256 + b) 0

/-- `struct.unpack('!q', bs)[0]`: requires exactly 8 bytes (otherwise
`struct.error`), decodes a signed 64-bit big-endian integer. -/
def unpack_q (bs : List Nat) : Option Int :=
  if bs.length = 8 then
    let n := fromBE bs
    some (if n < 2 ^ 63 then (n : Int) else (n : Int) - 2 ^ 64)
  else none

/-- `struct.unpack('!i', bs)[0]`: requires exactly 4 bytes (otherwise
`struct.error`), decodes a signed 32-bit big-endian integer. -/
def unpack_i (bs : List Nat) : Option Int :=
  if bs.length = 4 then
    let n := fromBE bs
    some (if n < 2 ^ 31 then (n : Int) else (n : Int) - 2 ^ 32)
  else none

/-- `struct.unpack('!f', bs)[0]`: requires exactly 4 bytes.  The float32
value is represented by its 4 wire bytes (IEEE semantics play no role in
the properties below, only sizes and success/failure do). -/
def unpack_f (bs : List Nat) : Option (List Nat) :=
  if bs.length = 4 then some bs else none

/-- UTF-8 encoding of the single character `chr n`, as performed by the
expyriment helper `unicode_to_bytes` / `unicode_to_byte`
(`str.encode('utf-8')` in CPython): one byte below U+0080, two bytes up to
U+07FF, three bytes up to U+FFFF except the surrogate range (which
`encode` rejects), four bytes up to U+10FFFF; `chr` itself rejects larger
code points.  `none` models the raised exception. -/
def utf8EncodeChar (n : Nat) : Option (List Nat) :=
  if n < 0x80 then some [n]
  else if n < 0x800 then some [0xC0 + n / 64, 0x80 + n % 64]
  else if n < 0x10000 then
    if 0xD800 ≤ n ∧ n ≤ 0xDFFF then none
    else some [0xE0 + n / 4096, 0x80 + (n / 64) % 64, 0x80 + n % 64]
  else if n < 0x110000 then
    some [0xF0 + n / 262144, 0x80 + (n / 4096) % 64, 0x80 + (n / 64) % 64,
          0x80 + n % 64]
  else none

/-- The ASCII bytes of the reject sentinel `"Wrong request!"`.  The source
tests `bytes_to_unicode(data).startswith("Wrong request!")`; since UTF-8
decoding maps an ASCII byte to itself and never produces an ASCII
character from a non-ASCII byte, that test holds exactly when the raw
bytes start with this 14-byte sequence. -/
def wrongRequestBytes : List Nat :=
  [87, 114, 111, 110, 103, 32, 114, 101, 113, 117, 101, 115, 116, 33]

/-- `TbvNetworkInterface._send` (lines 149–157): builds
`pack('!q', len + 5 + arg_len) + b"\x00\x00\x00" +
unicode_to_bytes(chr(len + 1)) + message + b"\x00" + args...` and hands it
to the transport.  This is the frame; `none` models an exception from
`chr`/`encode`.  `message` is the already-encoded request name. -/
def tbv_send (message : List Nat) (args : List (List Nat)) :
    Option (List Nat) :=
  let length := message.length
  let arg_length := (args.map List.length).sum
  (utf8EncodeChar (length + 1)).map fun marker =>
    pack_q (length + 5 + arg_length) ++ [0, 0, 0] ++ marker ++ message ++
      [0] ++ args.flatten

/-- `TurbosatoriNetworkInterface._send` (lines 159–170): identical frame
construction (the argument-length sum is merely written as a loop). -/
def ts_send (message : List Nat) (args : List (List Nat)) :
    Option (List Nat) :=
  let length := message.length
  let arg_length := (args.map fun x => x.length).sum
  (utf8EncodeChar (length + 1)).map fun marker =>
    pack_q (length + 5 + arg_length) ++ [0, 0, 0] ++ marker ++ message ++
      [0] ++ args.flatten

/-- Failure taxonomy of `request_data` (exception classes nested in the
interface classes). -/
inductive ReqError where
  | timeout : ReqError
  | requestError (msg : List Nat) : ReqError
  | dataError : ReqError
deriving DecidableEq, Repr

/-- Validation part of `TbvNetworkInterface.request_data`
(lines 201–218), applied to the transport result `received` (the value of
`self._wait()`, already stripped of its 4 header bytes; `none` means
timeout) and the measured elapsed time `rt`:
`None` → `TimeoutError`; text starting `"Wrong request!"` →
`RequestError` carrying `data[19:-1]`; echoed prefix mismatch
(`data[0:len(request)+1+arg_length] != request + b"\x00" + arg`) →
`DataError`; otherwise return `(data[len(request) + 1:], rt)`. -/
def tbv_request_data (request : List Nat) (args : List (List Nat))
    (received : Option (List Nat)) (rt : Nat) :
    Except ReqError (List Nat × Nat) :=
  let arg := args.flatten
  let arg_length := arg.length
  match received with
  | none => .error .timeout
  | some data =>
    if data.take 14 = wrongRequestBytes then
      .error (.requestError ((data.drop 19).dropLast))
    else if data.take (request.length + 1 + arg_length) ≠
        request ++ [0] ++ arg then
      .error .dataError
    else
      .ok (data.drop (request.length + 1), rt)

/-- Validation part of `TurbosatoriNetworkInterface.request_data`
(lines 201–219): line for line the same checks and the same return slice
as the TBV variant. -/
def ts_request_data (request : List Nat) (args : List (List Nat))
    (received : Option (List Nat)) (rt : Nat) :
    Except ReqError (List Nat × Nat) :=
  let arg := args.flatten
  let arg_length := arg.length
  match received with
  | none => .error .timeout
  | some data =>
    if data.take 14 = wrongRequestBytes then
      .error (.requestError ((data.drop 19).dropLast))
    else if data.take (request.length + 1 + arg_length) ≠
        request ++ [0] ++ arg then
      .error .dataError
    else
      .ok (data.drop (request.length + 1), rt)

theorem ts_request_data_eq_tbv : ts_request_data = tbv_request_data := rfl

/-- One call of the transport primitive `TcpClient.wait`: the requested
package size and the duration argument passed to it. -/
structure WaitCall where
  size : Int
  duration : Int
deriving DecidableEq, Repr

/-- `TbvNetworkInterface._wait` (lines 159–175), with the transport
abstracted as an oracle from wait calls to results and the clock reading
`int((get_time() - start) * 1000)` after the first wait supplied as
`elapsed1`.  First waits for the 8-byte length prefix with the configured
timeout, unpacks it (`!q`), then — only when
`timeout - elapsed1 > 0` — waits for the declared payload length with the
DECREMENTED duration `timeout - elapsed1`; returns the payload minus its
first 4 header bytes.  Also returns the list of wait calls issued. -/
def tbv_wait (timeout : Int) (elapsed1 : Int)
    (oracle : WaitCall → Option (List Nat)) :
    Except Unit (Option (List Nat)) × List WaitCall :=
  let c1 : WaitCall := ⟨8, timeout⟩
  match oracle c1 with
  | none => (.ok none, [c1])
  | some receive =>
    match unpack_q receive with
    | none => (.error (), [c1])
    | some length =>
      let t2 := timeout - elapsed1
      if 0 < t2 then
        let c2 : WaitCall := ⟨length, t2⟩
        match oracle c2 with
        | none => (.ok none, [c1, c2])
        | some data => (.ok (some (data.drop 4)), [c1, c2])
      else (.ok none, [c1])

/-- `TurbosatoriNetworkInterface._wait` (lines 172–182): same structure,
but the second wait is issued with the FULL configured timeout
(`duration=self._timeout`) — the code never reads the clock, so the
elapsed time of the first sub-wait (`elapsed1`, kept for comparison with
the TBV variant) is unused. -/
def ts_wait (timeout : Int) (elapsed1 : Int)
    (oracle : WaitCall → Option (List Nat)) :
    Except Unit (Option (List Nat)) × List WaitCall :=
  let _ := elapsed1
  let c1 : WaitCall := ⟨8, timeout⟩
  match oracle c1 with
  | none => (.ok none, [c1])
  | some receive =>
    match unpack_q receive with
    | none => (.error (), [c1])
    | some length =>
      let c2 : WaitCall := ⟨length, timeout⟩
      match oracle c2 with
      | none => (.ok none, [c1, c2])
      | some data => (.ok (some (data.drop 4)), [c1, c2])

/-- Session state of a network interface object: the `_is_connected` flag
and the stored plugin version triple (`_tbv_plugin_version` /
`_turbosatori_plugin_version`, `None` until a successful handshake). -/
structure SessionState where
  is_connected : Bool
  plugin_version : Option (Int × Int × Int)
deriving DecidableEq, Repr

/-- Decoding of the handshake tail in `connect`:
`(unpack('!i', data[:4])[0], unpack('!i', data[4:8])[0],
unpack('!i', data[8:])[0])`.  Each `unpack('!i', s)` demands exactly 4
bytes, so the triple decodes exactly when `data` has 12 bytes. -/
def unpack3i (data : List Nat) : Option (Int × Int × Int) :=
  match unpack_i (data.take 4), unpack_i ((data.drop 4).take 4),
      unpack_i (data.drop 8) with
  | some a, some b, some c => some (a, b, c)
  | _, _, _ => none

/-- Failure taxonomy of `connect`. -/
inductive ConnErr where
  /-- the bare `except: raise RuntimeError(...)` around the version unpack -/
  | runtime : ConnErr
  /-- an exception propagating out of the handshake `request_data` call -/
  | request (e : ReqError) : ConnErr
deriving DecidableEq, Repr

/-- `TbvNetworkInterface.connect` (lines 131–147), with the handshake
exchange `self.request_data("Request Socket")` abstracted as its outcome
`handshake`.  A no-op when already connected; otherwise decodes the
version triple inside `try`, raising `RuntimeError` if the unpack fails,
and only then sets `_is_connected`.  Returns the outcome paired with the
resulting session state (unchanged on every failure path). -/
def tbv_connect (st : SessionState)
    (handshake : Except ReqError (List Nat × Nat)) :
    Except ConnErr Unit × SessionState :=
  if st.is_connected then (.ok (), st)
  else
    match handshake with
    | .error e => (.error (.request e), st)
    | .ok (data, _) =>
      match unpack3i data with
      | some v => (.ok (), ⟨true, some v⟩)
      | none => (.error .runtime, st)

/-- `TurbosatoriNetworkInterface.connect` (lines 140–157): identical
handshake decoding and state updates. -/
def ts_connect (st : SessionState)
    (handshake : Except ReqError (List Nat × Nat)) :
    Except ConnErr Unit × SessionState :=
  if st.is_connected then (.ok (), st)
  else
    match handshake with
    | .error e => (.error (.request e), st)
    | .ok (data, _) =>
      match unpack3i data with
      | some v => (.ok (), ⟨true, some v⟩)
      | none => (.error .runtime, st)

theorem ts_connect_eq_tbv : ts_connect = tbv_connect := rfl

/-- Observable transport actions, used to record what a call performed. -/
inductive TcpEvent where
  /-- `TcpClient.connect` was invoked -/
  | connected : TcpEvent
  /-- `TcpClient.send` transmitted these bytes -/
  | sent (bytes : List Nat) : TcpEvent
  /-- `TcpClient.clear` drained the receive buffer -/
  | cleared : TcpEvent
  /-- `TcpClient.wait` was invoked -/
  | waited : TcpEvent
deriving DecidableEq, Repr

/-- A transport-level failure. -/
inductive TcpErr where
  | notConnected : TcpErr
deriving DecidableEq, Repr

/-- Modelled from the spec: `TcpClient` itself is not under `src/` (only
the lazy-loading façade `tcpclient/__init__.py` is).  Per the spec the
Stream Transport offers connect / send / receive-exactly-N-within-timeout
/ clear / close, and an operation invoked while the stream is
disconnected fails with a `RuntimeError`-class error without transmitting
anything and without implicitly connecting.  `tcpClear` is such an
operation: it succeeds (logging the drain) only on a connected stream. -/
def tcpClear (connected : Bool) : Except TcpErr Unit × List TcpEvent :=
  if connected then (.ok (), [.cleared]) else (.error .notConnected, [])

/-- Modelled from the spec: `TcpClient.send` on the Stream Transport —
transmits the bytes on a connected stream, fails with the
`RuntimeError`-class error otherwise (see `tcpClear`). -/
def tcpSend (connected : Bool) (bytes : List Nat) :
    Except TcpErr Unit × List TcpEvent :=
  if connected then (.ok (), [.sent bytes]) else (.error .notConnected, [])

/-- Failures observable from a full `request_data` call. -/
inductive SessErr where
  /-- a transport operation failed (`RuntimeError`-class) -/
  | transport (e : TcpErr) : SessErr
  /-- `chr`/`encode` failed while building the frame -/
  | encode : SessErr
  /-- `struct.error` while unpacking the length prefix in `_wait` -/
  | unpack : SessErr
  /-- one of the typed protocol exceptions of `request_data` -/
  | protocol (e : ReqError) : SessErr
deriving DecidableEq, Repr

/-- `TbvNetworkInterface.request_data` (lines 201–218) as a whole, over a
transport whose connection state is `connected`: the method performs, in
source order, `self._tcp.clear()`, `self._send(...)` (which ends in
`self._tcp.send(data)`), and `self._wait()`; it never calls
`self._tcp.connect()` and never consults `self._is_connected`.  The wait
phase is abstracted by `tbv_wait` with the given oracle and first-phase
elapsed time; `rt` is the measured elapsed time of the whole call.
Returns the outcome together with the log of transport events, in
order. -/
def tbv_request_data_session (connected : Bool) (request : List Nat)
    (args : List (List Nat)) (timeout : Int) (elapsed1 : Int)
    (oracle : WaitCall → Option (List Nat)) (rt : Nat) :
    Except SessErr (List Nat × Nat) × List TcpEvent :=
  let (r1, l1) := tcpClear connected
  match r1 with
  | .error e => (.error (.transport e), l1)
  | .ok _ =>
    match tbv_send request args with
    | none => (.error .encode, l1)
    | some frame =>
      let (r2, l2) := tcpSend connected frame
      match r2 with
      | .error e => (.error (.transport e), l1 ++ l2)
      | .ok _ =>
        match tbv_wait timeout elapsed1 oracle with
        | (.error _, _) => (.error .unpack, l1 ++ l2 ++ [.waited])
        | (.ok received, _) =>
          ((tbv_request_data request args received rt).mapError .protocol,
            l1 ++ l2 ++ [.waited])

/-- `struct.unpack_from('!{n}f', raw, offset)`: succeeds when `raw` holds
at least `offset + 4 * n` bytes (trailing bytes are allowed), yielding
`n` float32 values, each represented by its 4 wire bytes. -/
def unpack_from_f (n : Nat) (raw : List Nat) (offset : Nat) :
    Option (List (List Nat)) :=
  if offset + 4 * n ≤ raw.length then
    some (((raw.drop offset).take (4 * n)).toChunks 4)
  else none

/-- The per-ROI loop of `TbvNetworkInterface.get_semantic_feedback_pattern`
(lines 1178–1187): for each remaining ROI index, query its voxel count
(the auxiliary `get_semantic_nr_of_voxels` result, abstracted as the
oracle `numVoxels`), unpack that many float32s at the running offset,
advance the offset by `num_voxels * 4` and collect the sublists. -/
def feedbackLoop (numVoxels : Nat → Nat) (raw : List Nat) :
    Nat → Nat → Nat → Option (List (List (List Nat)))
  | _, 0, _ => some []
  | roi, remaining + 1, offset =>
    match unpack_from_f (numVoxels roi) raw offset with
    | none => none
    | some vs =>
      (feedbackLoop numVoxels raw (roi + 1) remaining
        (offset + numVoxels roi * 4)).map (vs :: ·)

/-- `TbvNetworkInterface.get_semantic_feedback_pattern` (lines 1156–1189):
queries the number of ROIs (`get_semantic_nr_of_rois()[0]`, abstracted as
`numRois`), requests the raw pattern bytes (`raw`), then runs the per-ROI
decode loop from offset 0. -/
def tbv_get_semantic_feedback_pattern (numRois : Nat)
    (numVoxels : Nat → Nat) (raw : List Nat) :
    Option (List (List (List Nat))) :=
  feedbackLoop numVoxels raw 0 numRois 0

/-- The EFFECTIVE `TbvNetworkInterface.get_semantic_multi_voxel_pattern`:
the class body defines the method twice and the second definition
(lines 1191–1204) shadows the nested-array implementation at lines
1118–1154.  The effective body issues no dimension queries at all and is
`struct.unpack('!f', data)[0], rt` on the raw response tail `data` —
`none` models the `struct.error` raised whenever `data` is not exactly 4
bytes.  (The shadowed first definition could not run either: it calls
`get_semantic_nr_of_voxels()` without its required `roi` argument and
multiplies the `(value, rt)` tuples returned by the dimension queries.) -/
def tbv_get_semantic_multi_voxel_pattern (data : List Nat) (rt : Nat) :
    Option (List Nat × Nat) :=
  (unpack_f data).map fun v => (v, rt)

/-- A Python value as it appears in the typed wrappers' reject guards:
either a `bytes` object or a `str` object. -/
inductive PyVal where
  | pbytes (b : List Nat) : PyVal
  | pstr (s : String) : PyVal
deriving DecidableEq, Repr

/-- Python 3 `==` on these values: `bytes` and `str` are never equal to
each other (`bytes.__eq__` returns `NotImplemented` for a `str` operand
and the fallback comparison is `False`), and within a type `==` is
structural equality. -/
def pyEq : PyVal → PyVal → Bool
  | .pbytes a, .pbytes b => a = b
  | .pstr a, .pstr b => a = b
  | _, _ => false

/-- Failures observable from a typed query wrapper. -/
inductive WrapErr where
  /-- an exception raised inside `request_data` propagates through the wrapper -/
  | propagated (e : ReqError) : WrapErr
  /-- the wrapper's own `raise Exception("Wrong request!: '{0}'...")` -/
  | wrongRequest (msg : List Nat) : WrapErr
  /-- `struct.error` from the final unpack -/
  | structError : WrapErr
deriving DecidableEq, Repr

/-- Body of `TurbosatoriNetworkInterface.get_current_time_point`
(lines 240–246) after `request_data` has returned `(data, rt)`:
`if data is None: return None, rt`; `elif data[:14] == "Wrong request!":
raise Exception(...)` — note the guard compares the `bytes` slice against
a `str` literal; `else: return struct.unpack('!i', data)[0], rt`.
`data?` is `some data` on the (only reachable) normal return of
`request_data`; the `None` branch is kept as in the source. -/
def ts_get_current_time_point_body (data? : Option (List Nat)) (rt : Nat) :
    Except WrapErr (Option Int × Nat) :=
  match data? with
  | none => .ok (none, rt)
  | some data =>
    if pyEq (.pbytes (data.take 14)) (.pstr "Wrong request!") then
      .error (.wrongRequest ((data.drop 19).dropLast))
    else
      match unpack_i data with
      | some v => .ok (some v, rt)
      | none => .error .structError

/-- `TurbosatoriNetworkInterface.get_current_time_point` (lines 228–246):
`data, rt = self.request_data("tGetCurrentTimePoint")` followed by the
body above; an exception from `request_data` propagates. -/
def ts_get_current_time_point (rd : Except ReqError (List Nat × Nat)) :
    Except WrapErr (Option Int × Nat) :=
  match rd with
  | .error e => .error (.propagated e)
  | .ok (data, rt) => ts_get_current_time_point_body (some data) rt

/-- The ASCII bytes of the request name `"tGetCurrentTimePoint"`. -/
def tGetCurrentTimePointBytes : List Nat :=
  [116, 71, 101, 116, 67, 117, 114, 114, 101, 110, 116,
   84, 105, 109, 101, 80, 111, 105, 110, 116]

/-- A concrete transport oracle: answers the 8-byte length-prefix wait
with a prefix declaring 20 payload bytes, and a 20-byte wait with 20
payload bytes, whatever duration is passed. -/
def c7Oracle : WaitCall → Option (List Nat) := fun c =>
  if c.size = 8 then some (beBytes 8 20)
  else if c.size = 20 then some (List.replicate 20 1)
  else none

/- ======================  Theorems  ====================== -/

theorem beBytes_length (w : Nat) : ∀ n, (beBytes w n).length = w := by
  induction w with
  | zero => intro n; rfl
  | succ w ih => intro n; simp [beBytes, ih]

theorem ts_send_eq_tbv : ts_send = tbv_send := rfl

set_option maxRecDepth 8192 in
/-- C1 — counterexample: for the 127-byte request name `"a" * 127`, the
marker `unicode_to_bytes(chr(128))` is the two UTF-8 bytes `C2 80`, so
the body following the 8-byte length prefix has 133 bytes while the
prefix declares `len(name) + 5 + 0 = 132`: the frame is not the claimed
byte sequence and the length prefix does not equal the number of bytes
that follow it. -/
theorem send_frame_invariant_fails_at_127 :
    (tbv_send (List.replicate 127 97) []).map (fun f => (f.drop 8).length) =
      some 133 ∧ (133 : Nat) ≠ 127 + 5 + 0 :=
  ⟨by decide, by decide⟩

/-- C1 (amended) — for every request name whose encoded byte length is at
most 126 (so that `len(name) + 1` is a single UTF-8 byte) and all
argument blobs, both `_send` implementations emit exactly
`pack_q(len + 5 + Σ|arg|) ++ 00 00 00 ++ [len + 1] ++ name ++ 00 ++
args`, and the length prefix equals the number of bytes that follow it in
the frame. -/
theorem send_frame_layout_of_short_name (message : List Nat)
    (args : List (List Nat)) (h : message.length ≤ 126) :
    tbv_send message args =
      some (pack_q (message.length + 5 + (args.map List.length).sum) ++
        [0, 0, 0] ++ [message.length + 1] ++ message ++ [0] ++
        args.flatten) ∧
    ts_send message args = tbv_send message args ∧
    ∀ frame, tbv_send message args = some frame →
      (frame.drop 8).length =
        message.length + 5 + (args.map List.length).sum := by
  have hlt : message.length + 1 < 0x80 := by omega
  have hm : utf8EncodeChar (message.length + 1) = some [message.length + 1] := by
    simp [utf8EncodeChar, hlt]
  refine ⟨by simp [tbv_send, hm], rfl, ?_⟩
  intro frame hf
  have hflat : args.flatten.length = (args.map List.length).sum :=
    List.length_flatten args
  simp only [tbv_send, hm, Option.map_some'] at hf
  obtain rfl := Option.some.inj hf
  simp [List.length_append, beBytes_length, pack_q, hflat]
  omega

theorem send_frame_layout_of_short_name_witness :
    ([116] : List Nat).length ≤ 126 ∧
    (tbv_send [116] [[7, 8]] =
      some (pack_q (1 + 5 + ([[7, 8]].map List.length).sum) ++
        [0, 0, 0] ++ [1 + 1] ++ [116] ++ [0] ++ [[7, 8]].flatten) ∧
    ts_send [116] [[7, 8]] = tbv_send [116] [[7, 8]] ∧
    ∀ frame, tbv_send [116] [[7, 8]] = some frame →
      (frame.drop 8).length = 1 + 5 + ([[7, 8]].map List.length).sum) := by
  constructor
  · decide
  · have h := send_frame_layout_of_short_name [116] [[7, 8]] (by decide)
    simpa using h

set_option maxRecDepth 16384 in
/-- C6 — counterexample: the request name `"a" * 200` has length at most
254, yet the argument-length marker `unicode_to_bytes(chr(201))` is the
two UTF-8 bytes `C3 89`, so it does not occupy exactly one byte in the
encoded frame, and the frame-length invariant fails: 206 bytes follow the
length prefix while it declares `200 + 5 + 0 = 205`. -/
theorem marker_two_bytes_at_200 :
    utf8EncodeChar (200 + 1) = some [195, 137] ∧
    (tbv_send (List.replicate 200 97) []).map (fun f => (f.drop 8).length) =
      some 206 ∧ (206 : Nat) ≠ 200 + 5 + 0 :=
  ⟨by decide, by decide, by decide⟩

/-- C6 (amended) — the marker `unicode_to_bytes(chr(len(name) + 1))`
occupies exactly one byte, and the frame-length invariant of the encoding
holds, precisely for names of encoded length at most 126; for names of
length 127 up to 2046 the UTF-8 encoding of the marker character occupies
two bytes, so the bytes following the length prefix exceed the declared
total by one — the marker becomes multi-byte silently at 127, not only
above 254. -/
theorem marker_single_byte_bound (message : List Nat)
    (args : List (List Nat)) :
    (message.length ≤ 126 →
      utf8EncodeChar (message.length + 1) = some [message.length + 1] ∧
      ∀ frame, tbv_send message args = some frame →
        (frame.drop 8).length =
          message.length + 5 + (args.map List.length).sum) ∧
    (127 ≤ message.length → message.length ≤ 2046 →
      (utf8EncodeChar (message.length + 1)).map List.length = some 2 ∧
      ∀ frame, tbv_send message args = some frame →
        (frame.drop 8).length =
          message.length + 6 + (args.map List.length).sum) := by
  constructor
  · intro h
    obtain ⟨h1, _, h3⟩ := send_frame_layout_of_short_name message args h
    have hlt : message.length + 1 < 0x80 := by omega
    exact ⟨by simp [utf8EncodeChar, hlt], h3⟩
  · intro h1 h2
    have hge : ¬ message.length + 1 < 0x80 := by omega
    have hlt : message.length + 1 < 0x800 := by omega
    have hm : utf8EncodeChar (message.length + 1) =
        some [0xC0 + (message.length + 1) / 64,
              0x80 + (message.length + 1) % 64] := by
      simp [utf8EncodeChar, hge, hlt]
    refine ⟨by simp [hm], ?_⟩
    intro frame hf
    have hflat : args.flatten.length = (args.map List.length).sum :=
      List.length_flatten args
    simp only [tbv_send, hm, Option.map_some'] at hf
    obtain rfl := Option.some.inj hf
    simp [List.length_append, beBytes_length, pack_q, hflat]
    omega

set_option maxRecDepth 16384 in
theorem marker_single_byte_bound_witness :
    (utf8EncodeChar 2 = some [2] ∧
      ∀ frame, tbv_send [116] [[7, 8]] = some frame →
        (frame.drop 8).length = 1 + 5 + ([[7, 8]].map List.length).sum) ∧
    ((utf8EncodeChar 128).map List.length = some 2 ∧
      ∀ frame, tbv_send (List.replicate 127 116) [] = some frame →
        (frame.drop 8).length =
          127 + 6 + (([] : List (List Nat)).map List.length).sum) := by
  constructor
  · have h := (marker_single_byte_bound [116] [[7, 8]]).1 (by decide)
    simpa using h
  · have h := (marker_single_byte_bound (List.replicate 127 116) []).2
      (by simp [List.length_replicate]) (by simp [List.length_replicate])
    simpa using h

/-- C2 — counterexample: request name `"ab"`, one argument blob
`[7, 8]`, delivered payload (after the 4 discarded header bytes)
`name ++ 00 ++ args ++ payload` with `payload = [9]`: `request_data`
returns `data[len(name) + 1:] = [7, 8, 9]` — the echoed argument bytes
are NOT stripped — instead of the claimed bare `payload = [9]`. -/
theorem request_data_keeps_echoed_args :
    tbv_request_data [97, 98] [[7, 8]] (some [97, 98, 0, 7, 8, 9]) 5 =
      .ok ([7, 8, 9], 5) ∧ ([7, 8, 9] : List Nat) ≠ [9] :=
  ⟨rfl, by decide⟩

/-- C2 (amended) — for every request name, argument blobs and payload,
if the transport delivers `name ++ 00 ++ concat(args) ++ payload` (and it
does not start with the reject sentinel), both `request_data`
implementations return `concat(args) ++ payload` paired with the elapsed
time: only the echoed name and the zero separator are stripped, the
echoed argument bytes remain at the front of the returned tail, and the
result equals `payload` exactly when there are no arguments. -/
theorem request_data_strips_name_only (request : List Nat)
    (args : List (List Nat)) (payload : List Nat) (rt : Nat)
    (h : (request ++ [0] ++ args.flatten ++ payload).take 14 ≠
      wrongRequestBytes) :
    tbv_request_data request args
        (some (request ++ [0] ++ args.flatten ++ payload)) rt =
      .ok (args.flatten ++ payload, rt) ∧
    ts_request_data request args
        (some (request ++ [0] ++ args.flatten ++ payload)) rt =
      .ok (args.flatten ++ payload, rt) := by
  have htake : (request ++ [0] ++ args.flatten ++ payload).take
      (request.length + 1 + args.flatten.length) =
      request ++ [0] ++ args.flatten := by
    rw [List.take_left']
    simp [List.length_append]
    omega
  have hdrop : (request ++ [0] ++ args.flatten ++ payload).drop
      (request.length + 1) = args.flatten ++ payload := by
    rw [List.append_assoc (request ++ [0]), List.drop_left']
    simp
  have hcond : ¬ (List.take (request.length + 1 + args.flatten.length)
      (request ++ [0] ++ args.flatten ++ payload) ≠
      request ++ [0] ++ args.flatten) := by
    rw [htake]
    exact fun hne => hne rfl
  constructor <;>
  · simp only [tbv_request_data, ts_request_data]
    rw [if_neg h, if_neg hcond, hdrop]

theorem request_data_strips_name_only_witness :
    (([97, 98] ++ [0] ++ [[7, 8]].flatten ++ [9]).take 14 ≠
      wrongRequestBytes) ∧
    (tbv_request_data [97, 98] [[7, 8]]
        (some ([97, 98] ++ [0] ++ [[7, 8]].flatten ++ [9])) 5 =
      .ok ([[7, 8]].flatten ++ [9], 5) ∧
    ts_request_data [97, 98] [[7, 8]]
        (some ([97, 98] ++ [0] ++ [[7, 8]].flatten ++ [9])) 5 =
      .ok ([[7, 8]].flatten ++ [9], 5)) :=
  ⟨by decide, request_data_strips_name_only [97, 98] [[7, 8]] [9] 5
    (by decide)⟩

/-- C3 — for every request and argument blobs, if the delivered payload
(after the 4 discarded header bytes) starts with the 14 ASCII bytes of
`"Wrong request!"`, both `request_data` implementations raise
`RequestError` carrying the remainder slice `data[19:-1]` of the server's
message, regardless of the payload content after the sentinel. -/
theorem request_data_wrong_request_raises (request : List Nat)
    (args : List (List Nat)) (data : List Nat) (rt : Nat)
    (h : data.take 14 = wrongRequestBytes) :
    tbv_request_data request args (some data) rt =
      .error (.requestError ((data.drop 19).dropLast)) ∧
    ts_request_data request args (some data) rt =
      .error (.requestError ((data.drop 19).dropLast)) := by
  constructor <;>
  · simp only [tbv_request_data, ts_request_data]
    rw [if_pos h]

theorem request_data_wrong_request_raises_witness :
    ((wrongRequestBytes ++ [33, 33]).take 14 = wrongRequestBytes) ∧
    (tbv_request_data tGetCurrentTimePointBytes []
        (some (wrongRequestBytes ++ [33, 33])) 2 =
      .error (.requestError
        (((wrongRequestBytes ++ [33, 33]).drop 19).dropLast)) ∧
    ts_request_data tGetCurrentTimePointBytes []
        (some (wrongRequestBytes ++ [33, 33])) 2 =
      .error (.requestError
        (((wrongRequestBytes ++ [33, 33]).drop 19).dropLast))) :=
  ⟨by decide, request_data_wrong_request_raises tGetCurrentTimePointBytes []
    (wrongRequestBytes ++ [33, 33]) 2 (by decide)⟩

/-- C4 — for every request and argument blobs, if the delivered payload
(after the 4 discarded header bytes) does not start with the reject
sentinel and does not start byte-for-byte with
`name ++ 00 ++ concat(args)`, both `request_data` implementations raise
`DataError`. -/
theorem request_data_echo_mismatch_raises (request : List Nat)
    (args : List (List Nat)) (data : List Nat) (rt : Nat)
    (h1 : data.take 14 ≠ wrongRequestBytes)
    (h2 : data.take (request.length + 1 + args.flatten.length) ≠
      request ++ [0] ++ args.flatten) :
    tbv_request_data request args (some data) rt = .error .dataError ∧
    ts_request_data request args (some data) rt = .error .dataError := by
  constructor <;>
  · simp only [tbv_request_data, ts_request_data]
    rw [if_neg h1, if_pos h2]

theorem request_data_echo_mismatch_raises_witness :
    (([98, 0, 5] : List Nat).take 14 ≠ wrongRequestBytes) ∧
    (([98, 0, 5] : List Nat).take (([97] : List Nat).length + 1 +
      ([] : List (List Nat)).flatten.length) ≠
      [97] ++ [0] ++ ([] : List (List Nat)).flatten) ∧
    (tbv_request_data [97] [] (some [98, 0, 5]) 0 = .error .dataError ∧
     ts_request_data [97] [] (some [98, 0, 5]) 0 = .error .dataError) :=
  ⟨by decide, by decide,
    request_data_echo_mismatch_raises [97] [] [98, 0, 5] 0
      (by decide) (by decide)⟩

/-- C5 — calling `request_data` while the connection is Disconnected
fails at the very first transport operation (`self._tcp.clear()`, before
`_send` ever runs) with the `RuntimeError`-class not-connected error, and
the transport event log is empty: no bytes are sent and no implicit
connect is performed (`request_data` contains no call to
`TcpClient.connect`). -/
theorem request_data_disconnected_fails (request : List Nat)
    (args : List (List Nat)) (timeout elapsed1 : Int)
    (oracle : WaitCall → Option (List Nat)) (rt : Nat) :
    tbv_request_data_session false request args timeout elapsed1 oracle rt =
      (.error (.transport .notConnected), []) := rfl

theorem request_data_disconnected_fails_witness :
    tbv_request_data_session false tGetCurrentTimePointBytes [] 2000 0
        c7Oracle 1 = (.error (.transport .notConnected), []) :=
  request_data_disconnected_fails tGetCurrentTimePointBytes [] 2000 0
    c7Oracle 1

/-- C7 — counterexample: a Turbo-Satori exchange with configured timeout
2000 ms in which 1500 ms were already spent waiting for the length
prefix: `TurbosatoriNetworkInterface._wait` issues the payload wait with
the full configured timeout 2000 again (`duration=self._timeout`), not
with the remaining budget `2000 - 1500`. -/
theorem ts_wait_full_timeout_counterexample :
    (ts_wait 2000 1500 c7Oracle).2 = [⟨8, 2000⟩, ⟨20, 2000⟩] ∧
    ((2000 : Int) ≠ 2000 - 1500) :=
  ⟨rfl, by decide⟩

/-- C7 (amended) — when the length prefix has been received and decoded
and the remaining budget is positive, `TbvNetworkInterface._wait` issues
the payload wait with the configured timeout decremented by the time
already spent in the length-prefix sub-wait, while
`TurbosatoriNetworkInterface._wait` issues it with the full configured
timeout again. -/
theorem wait_timeout_budget (timeout elapsed1 : Int)
    (oracle : WaitCall → Option (List Nat)) (receive : List Nat)
    (len : Int) (h1 : oracle ⟨8, timeout⟩ = some receive)
    (h2 : unpack_q receive = some len)
    (h3 : 0 < timeout - elapsed1) :
    (tbv_wait timeout elapsed1 oracle).2 =
      [⟨8, timeout⟩, ⟨len, timeout - elapsed1⟩] ∧
    (ts_wait timeout elapsed1 oracle).2 =
      [⟨8, timeout⟩, ⟨len, timeout⟩] := by
  constructor
  · simp only [tbv_wait, h1, h2, if_pos h3]
    cases oracle ⟨len, timeout - elapsed1⟩ <;> rfl
  · simp only [ts_wait, h1, h2]
    cases oracle ⟨len, timeout⟩ <;> rfl

theorem wait_timeout_budget_witness :
    c7Oracle ⟨8, 2000⟩ = some (beBytes 8 20) ∧
    unpack_q (beBytes 8 20) = some 20 ∧
    ((0 : Int) < 2000 - 1500) ∧
    ((tbv_wait 2000 1500 c7Oracle).2 = [⟨8, 2000⟩, ⟨20, 2000 - 1500⟩] ∧
     (ts_wait 2000 1500 c7Oracle).2 = [⟨8, 2000⟩, ⟨20, 2000⟩]) :=
  ⟨rfl, by decide, by decide,
    wait_timeout_budget 2000 1500 c7Oracle (beBytes 8 20) 20 rfl
      (by decide) (by decide)⟩

/-- C8 — evaluation at the failing input: with semantic dimensions
rois = 2, conditions = 1, voxels = 3 and a 24-byte (6-float32) main
payload, the EFFECTIVE `get_semantic_multi_voxel_pattern` (the second of
the two definitions of that name, which shadows the nested-array one)
issues no dimension queries and fails in `struct.unpack('!f', data)`
(`none`), instead of returning a nested sequence of
`2 * 1 * 3 = 6` decoded elements; by contrast
`get_semantic_feedback_pattern` with 2 ROIs of 3 and 2 voxels over a
20-byte payload does decode `3 + 2` elements — the sum of the auxiliary
dimension values. -/
theorem semantic_multi_voxel_pattern_shadowed :
    tbv_get_semantic_multi_voxel_pattern (List.replicate 24 0) 7 = none ∧
    (tbv_get_semantic_feedback_pattern 2
        (fun roi => if roi = 0 then 3 else 2)
        (List.replicate 20 5)).map (fun r => (r.map List.length).sum) =
      some (3 + 2) :=
  ⟨rfl, rfl⟩

/-- C9 — evaluation at the failing input: the server answers
`tGetCurrentTimePoint` with a correctly echoed name followed by the
payload text `"Wrong request!: x"`.  `request_data` passes it through
(the echo matches), and the wrapper's reject guard
`data[:14] == "Wrong request!"` compares a `bytes` slice with a `str`
literal — never equal in Python 3 — so the wrapper does NOT raise the
bare `Exception` carrying the server's message; it falls through to
`struct.unpack('!i', data)`, which fails on the 17-byte payload
(`struct.error`). -/
theorem wrapper_reject_guard_dead :
    ts_get_current_time_point (ts_request_data tGetCurrentTimePointBytes []
        (some (tGetCurrentTimePointBytes ++ [0] ++
          (wrongRequestBytes ++ [58, 32, 120]))) 3) =
      .error .structError ∧
    pyEq (.pbytes ((wrongRequestBytes ++ [58, 32, 120]).take 14))
      (.pstr "Wrong request!") = false :=
  ⟨rfl, rfl⟩

/-- C10 — if the handshake response tail cannot be unpacked as three
big-endian int32 values, `connect` (both variants) fails with the
`RuntimeError` setup failure — a constructor distinct from every
`request_data` exception (`TimeoutError`, `RequestError`, `DataError`) —
and the session state is returned unchanged: `is_connected` stays
`false` and the stored plugin version stays whatever it was (`None` for a
fresh session). -/
theorem connect_unpack_failure_state (st : SessionState) (data : List Nat)
    (rt : Nat) (h1 : st.is_connected = false)
    (h2 : unpack3i data = none) :
    tbv_connect st (.ok (data, rt)) = (.error .runtime, st) ∧
    ts_connect st (.ok (data, rt)) = (.error .runtime, st) ∧
    ∀ e : ReqError, (ConnErr.runtime : ConnErr) ≠ .request e := by
  refine ⟨?_, ?_, fun e => by simp⟩ <;>
    simp [tbv_connect, ts_connect, h1, h2]

theorem connect_unpack_failure_state_witness :
    (SessionState.mk false none).is_connected = false ∧
    unpack3i (List.replicate 8 0) = none ∧
    (tbv_connect ⟨false, none⟩ (.ok (List.replicate 8 0, 0)) =
      (.error .runtime, ⟨false, none⟩) ∧
    ts_connect ⟨false, none⟩ (.ok (List.replicate 8 0, 0)) =
      (.error .runtime, ⟨false, none⟩) ∧
    ∀ e : ReqError, (ConnErr.runtime : ConnErr) ≠ .request e) :=
  ⟨rfl, by decide,
    connect_unpack_failure_state ⟨false, none⟩ (List.replicate 8 0) 0
      rfl (by decide)⟩
